import Mathlib

/-!
Verification of the cross-process admission controller and the cancellable
task scheduler of the `bot` repository, against its natural-language spec.

The JavaScript sources are shallowly embedded: JS objects used as string-keyed
maps become association lists, JS numbers become `Int` (all values in play are
integers), `Date.now()` becomes an explicit `now : Int` parameter, filesystem
reads and writes become explicit state passing, and thrown exceptions become
explicit outcome constructors.
-/

namespace Bot

/-! ## Association-list operations mirroring JS object semantics

JS object keys are strings; assigning to an existing key replaces its value in
place, assigning to a fresh key appends it in insertion order, and `delete`
removes the key. -/

/-- Lookup of a key in a JS-style object, first matching entry. -/
def lookupA {β : Type} (k : String) : List (String × β) → Option β
  | [] => none
  | (k₂, v) :: rest => if k₂ = k then some v else lookupA k rest

/-- Assignment `obj[k] = v`: replace in place when the key exists, else append. -/
def setA {β : Type} (k : String) (v : β) : List (String × β) → List (String × β)
  | [] => [(k, v)]
  | (k₂, v₂) :: rest => if k₂ = k then (k, v) :: rest else (k₂, v₂) :: setA k v rest

/-- Deletion `delete obj[k]`. -/
def eraseA {β : Type} (k : String) : List (String × β) → List (String × β)
  | [] => []
  | (k₂, v₂) :: rest => if k₂ = k then eraseA k rest else (k₂, v₂) :: eraseA k rest

/-! ## Ledger data model (`shared_browser_state.json`)

From `FileBrowserManager._getDefaultState` and the fields the class reads and
writes: `browserCount`, `profiles`, `clusters`, `lastUpdated`. -/

/-- One entry of `state.clusters`: `{ count, lastActivity }`
(`FileBrowserManager._incrementStateCounters`). -/
structure ClusterInfo where
  count : Int
  lastActivity : Int
deriving Repr, DecidableEq

/-- One entry of `state.profiles` (`FileBrowserManager._createProfileRecord`).
Only the fields the verified operations inspect are kept: `id` and
`clusterId`; `name`, `instanceId` and `createdAt` are opaque payload. -/
structure ProfileRecord where
  id : String
  clusterId : String
deriving Repr, DecidableEq

/-- The shared ledger document (`FileBrowserManager._getDefaultState`). -/
structure BrowserState where
  browserCount : Int
  profiles : List (String × ProfileRecord)
  clusters : List (String × ClusterInfo)
  lastUpdated : Int
deriving Repr, DecidableEq

namespace FileBrowserManager

/-- `_getDefaultState()`: `{ browserCount: 0, profiles: {}, lastUpdated: Date.now(), clusters: {} }`. -/
def getDefaultState (now : Int) : BrowserState :=
  { browserCount := 0, profiles := [], clusters := [], lastUpdated := now }

/-- `writeState(state)`: stamps `state.lastUpdated = Date.now()` and persists. -/
def writeState (now : Int) (s : BrowserState) : BrowserState :=
  { s with lastUpdated := now }

/-- `_incrementStateCounters(state)`: bump `browserCount` by one, create the
caller's cluster entry `{ count: 0, lastActivity: now }` when absent, then bump
its `count` and refresh `lastActivity`.  Returns the mutated state and the new
`browserCount`. -/
def incrementStateCounters (cid : String) (now : Int) (s : BrowserState) :
    BrowserState × Int :=
  let b := s.browserCount + 1
  let cl₀ := match lookupA cid s.clusters with
    | some _ => s.clusters
    | none => setA cid { count := 0, lastActivity := now } s.clusters
  let cl := match lookupA cid cl₀ with
    | some ci => setA cid { count := ci.count + 1, lastActivity := now } cl₀
    | none => cl₀
  ({ s with browserCount := b, clusters := cl }, b)

/-- `_decrementStateCounters(state)`: `browserCount = Math.max(0, browserCount - 1)`;
when the caller's cluster entry exists, `count = Math.max(0, count - 1)` and
`lastActivity` is refreshed.  Returns the mutated state and the new
`browserCount`. -/
def decrementStateCounters (cid : String) (now : Int) (s : BrowserState) :
    BrowserState × Int :=
  let b := max 0 (s.browserCount - 1)
  let cl := match lookupA cid s.clusters with
    | some ci => setA cid { count := max 0 (ci.count - 1), lastActivity := now } s.clusters
    | none => s.clusters
  ({ s with browserCount := b, clusters := cl }, b)

/-- The under-lock body of `incrementBrowserCount`: read state, apply
`_incrementStateCounters`, persist via `writeState`.  Returns the persisted
state and the returned count. -/
def incrementBrowserCount (cid : String) (now : Int) (s : BrowserState) :
    BrowserState × Int :=
  let (s₁, n) := incrementStateCounters cid now s
  (writeState now s₁, n)

/-- The under-lock body of `decrementBrowserCount`: read state, apply
`_decrementStateCounters`, persist via `writeState`. -/
def decrementBrowserCount (cid : String) (now : Int) (s : BrowserState) :
    BrowserState × Int :=
  let (s₁, n) := decrementStateCounters cid now s
  (writeState now s₁, n)

end FileBrowserManager

/-! ## Slot acquisition (`ProfileManager._validateBrowserLimit`)

The acquisition path of the admission controller: it first increments and
persists the global counter unconditionally, and only then checks the limit;
on overflow it decrements (persisting again) and throws
`"Global browser limit exceeded during creation"`. -/

/-- Outcome of `_validateBrowserLimit`: accepted, or rejected via the thrown
limit-exceeded error. -/
inductive AcquireOutcome where
  | accepted (newCount : Int)
  | rejected
deriving Repr, DecidableEq

namespace ProfileManager

open FileBrowserManager

/-- `_validateBrowserLimit(profile)` as a slot acquisition, from part_006:
`newCount = incrementBrowserCount()`; `if (newCount > max) { decrementBrowserCount(); throw }`.
Returns the final persisted ledger, the outcome, and the list of ledger
versions persisted along the way (in order). -/
def validateBrowserLimit (cid : String) (maxB : Int) (now₁ now₂ : Int)
    (s : BrowserState) : BrowserState × AcquireOutcome × List BrowserState :=
  let (s₁, newCount) := incrementBrowserCount cid now₁ s
  if newCount > maxB then
    let (s₂, _) := decrementBrowserCount cid now₂ s₁
    (s₂, .rejected, [s₁, s₂])
  else
    (s₁, .accepted newCount, [s₁])

end ProfileManager

/-! ## Cluster reaping (`FileBrowserManager.cleanupDeadClusters`) -/

namespace FileBrowserManager

/-- The body of the `for` loop of `_performClusterCleanup` for one snapshot
entry `(clusterId, clusterInfo)`: when inactive past the threshold, floor-
subtract its count from `browserCount`, delete its cluster entry, and delete
every profile whose `clusterId` matches. -/
def cleanupEntry (now maxInactiveTime : Int) (acc : BrowserState × Nat)
    (e : String × ClusterInfo) : BrowserState × Nat :=
  if now - e.2.lastActivity > maxInactiveTime then
    let s := acc.1
    ({ s with
        browserCount := max 0 (s.browserCount - e.2.count),
        clusters := eraseA e.1 s.clusters,
        profiles := s.profiles.filter (fun p => ¬ (p.2.clusterId = e.1)) },
      acc.2 + 1)
  else
    acc

/-- `_performClusterCleanup(state, maxInactiveTime)`: iterate over a snapshot
of `Object.entries(state.clusters)`, reaping each dead cluster; returns the
mutated state and `cleanedCount`. -/
def performClusterCleanup (now maxInactiveTime : Int) (s : BrowserState) :
    BrowserState × Nat :=
  s.clusters.foldl (cleanupEntry now maxInactiveTime) (s, 0)

/-- The under-lock body of `cleanupDeadClusters`: run the cleanup and persist
(via `writeState`) only when `cleanedCount > 0`; return `cleanedCount`. -/
def cleanupDeadClusters (now maxInactiveTime : Int) (s : BrowserState) :
    BrowserState × Nat :=
  let (s₁, cleaned) := performClusterCleanup now maxInactiveTime s
  (if cleaned > 0 then writeState now s₁ else s, cleaned)

end FileBrowserManager

/-! ## State reads without the lock (`readStateWithoutLock` and callers)

`readStateWithoutLock` runs `fs.readFile` and `JSON.parse`, both of which may
throw (file missing, malformed contents); the surrounding `try`/`catch`
replaces any such failure by `_getDefaultState()`. -/

/-- The possible conditions of the shared state file when read. -/
inductive SharedFile where
  | missing
  | unparseable
  | parsed (s : BrowserState)
deriving Repr, DecidableEq

namespace FileBrowserManager

/-- The fallible part of `readStateWithoutLock`: `fs.readFile` followed by
`JSON.parse`, each failure surfacing as a thrown error. -/
def readFileAndParse : SharedFile → Except Unit BrowserState
  | .missing => .error ()
  | .unparseable => .error ()
  | .parsed s => .ok s

/-- `readStateWithoutLock()`: return the parsed state, or `_getDefaultState()`
when the read or the parse throws. -/
def readStateWithoutLock (f : SharedFile) (now : Int) : BrowserState :=
  match readFileAndParse f with
  | .ok s => s
  | .error _ => getDefaultState now

/-- `getCurrentBrowserCount()`: `state.browserCount || 0` on the lock-free read. -/
def getCurrentBrowserCount (f : SharedFile) (now : Int) : Int :=
  (readStateWithoutLock f now).browserCount

/-- `canCreateNewBrowser()`: `currentCount < config.MAX_CONCURRENT_BROWSERS`. -/
def canCreateNewBrowser (f : SharedFile) (now maxB : Int) : Bool :=
  getCurrentBrowserCount f now < maxB

end FileBrowserManager

/-! ## The file lock (`acquireLock` / `_handleStaleLock` / `releaseLock`)

The lock is the exclusive-creation file `browser_state.lock`.  Its dynamics
are embedded as a transition system over the atomic filesystem steps the code
performs: a successful `fs.writeFile(..., { flag: 'wx' })` (only possible when
the file is absent), the stale-lock `fs.unlink` of `_handleStaleLock` (only
when the file's age exceeds `STALE_LOCK_THRESHOLD = 30000`), and `releaseLock`
(unlink only when the content equals the caller's `instanceId`).  A process
"holds" the lock from its successful exclusive create until its own
`releaseLock` call. -/

/-- The lock file: owner `instanceId` content and mtime, when present. -/
structure LockWorld where
  lockFile : Option (String × Int)
  holders : List String
deriving Repr, DecidableEq

/-- Atomic steps of the lock protocol, each naming the acting process. -/
inductive LockEv where
  | acquireOk (p : String) (t : Int)
  | staleBreak (p : String) (t : Int)
  | release (p : String)
deriving Repr, DecidableEq

/-- Whether an event is the stale-lock unlink of `_handleStaleLock`. -/
def LockEv.isStaleBreak : LockEv → Bool
  | .staleBreak _ _ => true
  | _ => false

/-- One step of the lock protocol; `none` when the step's guard does not hold
(the exclusive create fails on an existing file; the stale unlink requires an
existing file older than `STALE_LOCK_THRESHOLD = 30000`). -/
def lockStep (w : LockWorld) : LockEv → Option LockWorld
  | .acquireOk p t =>
    match w.lockFile with
    | none => some { lockFile := some (p, t), holders := p :: w.holders }
    | some _ => none
  | .staleBreak _ t =>
    match w.lockFile with
    | some (_, m) => if t - m > 30000 then some { w with lockFile := none } else none
    | none => none
  | .release p =>
    let lf := match w.lockFile with
      | some (c, m) => if c = p then none else some (c, m)
      | none => none
    some { lockFile := lf, holders := w.holders.erase p }

/-- A run of the lock protocol from the initial world (no lock file, no
holder). -/
def lockRun (evs : List LockEv) : Option LockWorld :=
  evs.foldlM lockStep { lockFile := none, holders := [] }

namespace FileBrowserManager

/-- `releaseLock()` acting on the lock-file content alone: read the token,
unlink only when its content equals the caller's `instanceId`; every error
(missing file, foreign owner) is swallowed. -/
def releaseLock (me : String) (lock : Option String) : Option String :=
  match lock with
  | some content => if content = me then none else some content
  | none => none

end FileBrowserManager

/-! ## The wait-for-slot poll loop (`waitForAvailableSlot`)

The loop polls `canCreateNewBrowser()`; the wall-clock `while` bound becomes
explicit fuel (one unit per iteration), the sequence of poll outcomes an
oracle `polls : Nat → PollResult`.  In the source, `consecutiveFailures` is
incremented in the `catch` branch and reset only on the success return. -/

/-- Outcome of one availability poll: a value of `canCreateNewBrowser()`, or a
thrown internal error. -/
inductive PollResult where
  | ok (canCreate : Bool)
  | err
deriving Repr, DecidableEq

namespace FileBrowserManager

/-- `waitForAvailableSlot(maxWaitTime)`: return `true` when a slot is free;
on a thrown error, bump `consecutiveFailures` and return `true` ("assuming we
can proceed") once it exceeds 5; once the time budget (fuel) is exhausted,
throw the timeout error. -/
def waitForAvailableSlot (polls : Nat → PollResult) :
    Nat → Nat → Nat → Except String Bool
  | 0, _, _ => .error "Timeout waiting for available browser slot"
  | fuel + 1, i, consecutiveFailures =>
    match polls i with
    | .ok true => .ok true
    | .ok false => waitForAvailableSlot polls fuel (i + 1) consecutiveFailures
    | .err =>
      if 5 < consecutiveFailures + 1 then .ok true
      else waitForAvailableSlot polls fuel (i + 1) (consecutiveFailures + 1)

end FileBrowserManager

/-! ## The concurrent scheduler (`PSNInstance.processAccountsInParallel`)

Each account promise fulfills with a settled value `{ type, result?, index }`:
`'exit'` / `'completed'` / `'error'` carry an `accountResult` record, and
`'aborted'` carries none.  The race loop consumes settled values one at a
time; the consumption order (a resolution of the `Promise.race` scheduling) is
embedded as the order of the input list.  On `'exit'` the loop pushes the
triggering result and breaks; `'completed'` and `'error'` are pushed;
`'aborted'` falls through every branch and is pushed nowhere.  When the loop
finishes without an exit it has consumed every promise, so the
`Promise.allSettled` drain runs on an empty list. -/

/-- The `accountResult` record built by `processAccountsInParallel` (payload
fields `password`, `responseTime`, `screenshot`, `additionalInfo`, `error` are
opaque and omitted).  `shouldExit` is `result.shouldExit || false`. -/
structure AccountResult where
  email : String
  status : String
  tabIndex : Nat
  shouldExit : Bool
deriving Repr, DecidableEq

/-- A settled value of one account promise, tagged by its `type` field. -/
inductive SettledVal where
  | completed (r : AccountResult)
  | exitSignal (r : AccountResult)
  | errored (r : AccountResult)
  | aborted (index : Nat)
deriving Repr, DecidableEq

/-- Whether a settled value carries `type: 'exit'`. -/
def SettledVal.isExit : SettledVal → Bool
  | .exitSignal _ => true
  | _ => false

namespace PSNInstance

/-- The `while`/`Promise.race` loop of `processAccountsInParallel` over the
settled values in consumption order: returns `completedResults` and
`shouldExitGlobal`. -/
def raceLoop : List SettledVal → List AccountResult × Bool
  | [] => ([], false)
  | .exitSignal r :: _ => ([r], true)
  | .completed r :: rest =>
    let (l, e) := raceLoop rest
    (r :: l, e)
  | .errored r :: rest =>
    let (l, e) := raceLoop rest
    (r :: l, e)
  | .aborted _ :: rest => raceLoop rest

/-- The value `processAccountsInParallel` returns (counts omitted):
`{ finalResults, exitTriggered }`. -/
structure SchedulerRun where
  finalResults : List AccountResult
  exitTriggered : Bool
deriving Repr, DecidableEq

/-- `processAccountsInParallel` on the settled values in consumption order. -/
def processAccountsInParallel (l : List SettledVal) : SchedulerRun :=
  let (results, exited) := raceLoop l
  { finalResults := results, exitTriggered := exited }

end PSNInstance

/-! ## The timeout-escalation heuristic (`AccountProcessor._processLogin`)

After the password submit, `_processLogin` reads the page body; when
`_hasTimeoutMessage(bodyText)` holds *and* `accountsCount === tabIndex + 1`
(the task is the last-indexed input of the batch), it either returns
`{ shouldExit: true, result: <timeout-error record> }` when
`timeoutRetryCount >= MAX_TIMEOUT_RETRIES`, or throws
`'Timeout detected, retrying...'`; otherwise the normal classification path
runs.  In `processAccount`, a `shouldExit`-marked return is unwrapped as
`return finalResult.result` — the inner record, which carries no `shouldExit`
field. -/

/-- The inputs of the timeout branch of `_processLogin`. -/
structure LoginCtx where
  hasTimeoutMessage : Bool
  tabIndex : Nat
  accountsCount : Nat
  timeoutRetryCount : Nat
deriving Repr, DecidableEq

/-- How the timeout branch of `_processLogin` resolves. -/
inductive LoginStepOutcome where
  | exitSignal (result : AccountResult)
  | retryThrow
  | normal (result : AccountResult)
deriving Repr, DecidableEq

namespace AccountProcessor

/-- `Constants.MAX_TIMEOUT_RETRIES`. -/
def MAX_TIMEOUT_RETRIES : Nat := 2

/-- The `timeout-error` record `_processLogin` wraps in its `shouldExit`
return: `{ email, status: 'timeout-error', responseTime, tabIndex, retryCount,
message }` — the record has no `shouldExit` field, so a later
`result.shouldExit` read is falsy (modelled `false`). -/
def timeoutErrorResult (email : String) (tabIndex : Nat) : AccountResult :=
  { email := email, status := "timeout-error", tabIndex := tabIndex,
    shouldExit := false }

/-- The timeout branch of `_processLogin`: escalate, throw for a retry, or
fall through to the normal classification (whose record is a parameter). -/
def processLoginTimeoutBranch (c : LoginCtx) (email : String)
    (normalResult : AccountResult) : LoginStepOutcome :=
  if c.hasTimeoutMessage ∧ c.accountsCount = c.tabIndex + 1 then
    if MAX_TIMEOUT_RETRIES ≤ c.timeoutRetryCount then
      .exitSignal (timeoutErrorResult email c.tabIndex)
    else
      .retryThrow
  else
    .normal normalResult

/-- What `_processLogin` hands back to `processAccount` when no throw occurs:
either the `{ shouldExit: true, result }` wrapper or a plain result record. -/
inductive ProcessLoginRet where
  | withExit (result : AccountResult)
  | plain (result : AccountResult)
deriving Repr, DecidableEq

/-- `processAccount`'s unwrapping: `if (finalResult.shouldExit) return
finalResult.result;` else eventually `return finalResult`. -/
def processAccountReturn : ProcessLoginRet → AccountResult
  | .withExit r => r
  | .plain r => r

end AccountProcessor

namespace PSNInstance

/-- The classification in `processAccountsInParallel`'s map callback:
`type: result.shouldExit ? 'exit' : 'completed'`, wrapping the account
result. -/
def classifyProcessed (r : AccountResult) : SettledVal :=
  if r.shouldExit then .exitSignal r else .completed r

end PSNInstance

/-- The result the race loop records for a non-`'exit'` settled value:
`'completed'` and `'error'` values are pushed, `'aborted'` values fall through
every branch of the loop and are recorded nowhere. -/
def settledResultNoExit : SettledVal → Option AccountResult
  | .completed r => some r
  | .errored r => some r
  | .exitSignal _ => none
  | .aborted _ => none

/-- Invariant of stale-break-free lock runs: either nobody holds the lock and
the lock file is absent, or exactly one process holds it and the lock file
carries that process's identifier. -/
def LockInv (w : LockWorld) : Prop :=
  (w.holders = [] ∧ w.lockFile = none) ∨
    ∃ p m, w.holders = [p] ∧ w.lockFile = some (p, m)

/-! ## Helper lemmas -/

theorem lookupA_setA_self {β : Type} (k : String) (v : β) :
    ∀ l : List (String × β), lookupA k (setA k v l) = some v
  | [] => by simp [setA, lookupA]
  | (k₂, v₂) :: rest => by
    by_cases h : k₂ = k
    · simp [setA, h, lookupA]
    · simpa [setA, h, lookupA] using lookupA_setA_self k v rest

theorem lookupA_eraseA_self {β : Type} (k : String) :
    ∀ l : List (String × β), lookupA k (eraseA k l) = none
  | [] => by simp [eraseA, lookupA]
  | (k₂, v₂) :: rest => by
    by_cases h : k₂ = k
    · simpa [eraseA, h] using lookupA_eraseA_self k rest
    · simpa [eraseA, h, lookupA] using lookupA_eraseA_self k rest

/-! ## Theorems for the claims -/

open FileBrowserManager in
/-- C6 (confirmed): `decrementBrowserCount` floors both the global count and
the calling worker's per-worker count at 0: the new global count is
`max 0 (old - 1)` and never negative, the worker's counter (when its entry
exists) becomes `max 0 (count - 1)` and never negative, other states are left
with their clusters untouched, and the operation always returns the new
persisted global count. -/
theorem C6_releaseSlot_floors_at_zero (s : BrowserState) (cid : String) (now : Int) :
    (decrementBrowserCount cid now s).2 =
      (decrementBrowserCount cid now s).1.browserCount ∧
    (decrementBrowserCount cid now s).1.browserCount = max 0 (s.browserCount - 1) ∧
    0 ≤ (decrementBrowserCount cid now s).1.browserCount ∧
    (∀ ci, lookupA cid s.clusters = some ci →
      lookupA cid (decrementBrowserCount cid now s).1.clusters =
        some { count := max 0 (ci.count - 1), lastActivity := now } ∧
      0 ≤ max 0 (ci.count - 1)) ∧
    (lookupA cid s.clusters = none →
      (decrementBrowserCount cid now s).1.clusters = s.clusters) := by
  cases h : lookupA cid s.clusters with
  | none =>
    simp [decrementBrowserCount, decrementStateCounters, writeState, h]
  | some ci =>
    refine ⟨by simp [decrementBrowserCount, decrementStateCounters, writeState, h], ?_, ?_, ?_, ?_⟩
    · simp [decrementBrowserCount, decrementStateCounters, writeState, h]
    · simp [decrementBrowserCount, decrementStateCounters, writeState, h]
    · intro ci₂ hci₂
      obtain rfl : ci = ci₂ := by injection hci₂
      refine ⟨?_, le_max_left 0 _⟩
      simp [decrementBrowserCount, decrementStateCounters, writeState, h, lookupA_setA_self]
    · intro hnone
      exact absurd hnone (by simp)

/-- Witness for C6 at a concrete ledger: worker `"1"` holds count 2 with a
global count of 5; a release yields global count `max 0 4` and worker count
`max 0 1`. -/
theorem C6_witness :
    0 ≤ (FileBrowserManager.decrementBrowserCount "1" 9
      { browserCount := 5, profiles := [],
        clusters := [("1", { count := 2, lastActivity := 0 })],
        lastUpdated := 0 }).1.browserCount ∧
    lookupA "1" (FileBrowserManager.decrementBrowserCount "1" 9
      { browserCount := 5, profiles := [],
        clusters := [("1", { count := 2, lastActivity := 0 })],
        lastUpdated := 0 }).1.clusters =
      some { count := max 0 (2 - 1), lastActivity := 9 } := by
  refine ⟨(C6_releaseSlot_floors_at_zero _ "1" 9).2.2.1, ?_⟩
  exact ((C6_releaseSlot_floors_at_zero _ "1" 9).2.2.2.1
    { count := 2, lastActivity := 0 } (by decide)).1

open FileBrowserManager in
/-- C8 (confirmed): `releaseLock` deletes the lock token only when its content
equals the caller's own `instanceId`; a foreign owner's token and a missing
token are left unchanged, no error is raised (the operation is total), and
release is idempotent. -/
theorem C8_releaseLock_only_own (me : String) (lock : Option String) :
    releaseLock me (some me) = none ∧
    (∀ o, o ≠ me → releaseLock me (some o) = some o) ∧
    releaseLock me none = none ∧
    releaseLock me (releaseLock me lock) = releaseLock me lock := by
  refine ⟨by simp [releaseLock], ?_, rfl, ?_⟩
  · intro o h
    simp [releaseLock, h]
  · cases lock with
    | none => rfl
    | some c =>
      by_cases h : c = me <;> simp [releaseLock, h]

/-- Witness for C8: releasing against another owner's token `"other"` leaves
it in place. -/
theorem C8_witness :
    FileBrowserManager.releaseLock "cluster_1_5" (some "other") = some "other" :=
  (C8_releaseLock_only_own "cluster_1_5" none).2.1 "other" (by decide)

open FileBrowserManager in
/-- C10 (confirmed): when the shared state file is missing or its contents do
not parse, `readStateWithoutLock` returns the default state (`browserCount 0`,
empty `profiles` and `clusters`), so `getCurrentBrowserCount` evaluates to `0`
and `canCreateNewBrowser` to `0 < max`, and neither propagates the read or
parse error. -/
theorem C10_read_returns_default (f : SharedFile) (now maxB : Int)
    (h : readFileAndParse f = .error ()) :
    readStateWithoutLock f now = getDefaultState now ∧
    (readStateWithoutLock f now).browserCount = 0 ∧
    (readStateWithoutLock f now).profiles = [] ∧
    (readStateWithoutLock f now).clusters = [] ∧
    getCurrentBrowserCount f now = 0 ∧
    (canCreateNewBrowser f now maxB = true ↔ 0 < maxB) := by
  simp [readStateWithoutLock, h, getDefaultState, getCurrentBrowserCount,
    canCreateNewBrowser]

/-- Witness for C10 at the missing-file case. -/
theorem C10_witness :
    FileBrowserManager.getCurrentBrowserCount SharedFile.missing 0 = 0 :=
  (C10_read_returns_default SharedFile.missing 0 10 rfl).2.2.2.2.1

theorem incrementBrowserCount_browserCount (cid : String) (now : Int)
    (s : BrowserState) :
    (FileBrowserManager.incrementBrowserCount cid now s).1.browserCount =
      s.browserCount + 1 ∧
    (FileBrowserManager.incrementBrowserCount cid now s).2 = s.browserCount + 1 := by
  cases h : lookupA cid s.clusters <;>
    simp [FileBrowserManager.incrementBrowserCount,
      FileBrowserManager.incrementStateCounters, FileBrowserManager.writeState, h,
      lookupA_setA_self]

theorem decrementBrowserCount_browserCount (cid : String) (now : Int)
    (s : BrowserState) :
    (FileBrowserManager.decrementBrowserCount cid now s).1.browserCount =
      max 0 (s.browserCount - 1) := by
  cases h : lookupA cid s.clusters <;>
    simp [FileBrowserManager.decrementBrowserCount,
      FileBrowserManager.decrementStateCounters, FileBrowserManager.writeState, h]

/-- C1 (corrected): the acquisition path is increment-then-compensate, not
check-then-mutate.  At the configured maximum the acquisition is rejected
(the limit-exceeded error is thrown), but only after the incremented ledger —
`globalCount = max + 1` — has been persisted; a compensating decrement then
persists again, and the final ledger differs from the original (here the
caller's cluster entry was created where there was none). -/
theorem C1_counterexample :
    (ProfileManager.validateBrowserLimit "1" 10 5 6
      { browserCount := 10, profiles := [], clusters := [], lastUpdated := 0 }).2.1 =
      AcquireOutcome.rejected ∧
    (ProfileManager.validateBrowserLimit "1" 10 5 6
      { browserCount := 10, profiles := [], clusters := [], lastUpdated := 0 }).1 ≠
      { browserCount := 10, profiles := [], clusters := [], lastUpdated := 0 } ∧
    (ProfileManager.validateBrowserLimit "1" 10 5 6
      { browserCount := 10, profiles := [], clusters := [], lastUpdated := 0 }).1.clusters =
      [("1", { count := 0, lastActivity := 6 })] ∧
    ((ProfileManager.validateBrowserLimit "1" 10 5 6
      { browserCount := 10, profiles := [], clusters := [], lastUpdated := 0 }).2.2.map
        (fun t => t.browserCount)) = [11, 10] := by
  decide

open ProfileManager FileBrowserManager in
/-- C1 (amended): starting from a ledger with nonnegative `globalCount`, when
the count is at or above the maximum the acquisition is rejected and the
compensating decrement restores the persisted `globalCount` to its prior
value, the persisted trace having transiently held `globalCount + 1 > max`;
when below the maximum the acquisition is accepted and the persisted
`globalCount` equals the prior value plus one, never exceeding `max` and never
negative. -/
theorem C1_acquire_bounds (s : BrowserState) (cid : String)
    (maxB now₁ now₂ : Int) (h0 : 0 ≤ s.browserCount) :
    (maxB < s.browserCount + 1 →
      (validateBrowserLimit cid maxB now₁ now₂ s).2.1 = AcquireOutcome.rejected ∧
      (validateBrowserLimit cid maxB now₁ now₂ s).1.browserCount = s.browserCount ∧
      ((validateBrowserLimit cid maxB now₁ now₂ s).2.2.map
        (fun t => t.browserCount)) = [s.browserCount + 1, s.browserCount]) ∧
    (s.browserCount + 1 ≤ maxB →
      (validateBrowserLimit cid maxB now₁ now₂ s).2.1 =
        AcquireOutcome.accepted (s.browserCount + 1) ∧
      (validateBrowserLimit cid maxB now₁ now₂ s).1.browserCount =
        s.browserCount + 1 ∧
      (validateBrowserLimit cid maxB now₁ now₂ s).1.browserCount ≤ maxB ∧
      0 ≤ (validateBrowserLimit cid maxB now₁ now₂ s).1.browserCount) := by
  have hinc := incrementBrowserCount_browserCount cid now₁ s
  have hdec := decrementBrowserCount_browserCount cid now₂
    (incrementBrowserCount cid now₁ s).1
  constructor
  · intro hover
    have hif : (incrementBrowserCount cid now₁ s).2 > maxB := by omega
    simp only [validateBrowserLimit, hinc.2, if_pos (by omega : s.browserCount + 1 > maxB)]
    refine ⟨by trivial, ?_, ?_⟩
    · rw [hdec, hinc.1]; omega
    · simp [hdec, hinc.1, hinc.2]
      omega
  · intro hunder
    simp only [validateBrowserLimit, hinc.2,
      if_neg (by omega : ¬ s.browserCount + 1 > maxB)]
    refine ⟨by trivial, ?_, ?_, ?_⟩ <;> rw [hinc.1] <;> omega

/-- Witness for C1: with `max = 10`, a ledger at 10 is rejected and restored
to 10, and a ledger at 9 is accepted at 10. -/
theorem C1_witness :
    (ProfileManager.validateBrowserLimit "1" 10 5 6
      { browserCount := 10, profiles := [], clusters := [], lastUpdated := 0 }).1.browserCount =
      (10 : Int) ∧
    (ProfileManager.validateBrowserLimit "1" 10 5 6
      { browserCount := 9, profiles := [], clusters := [], lastUpdated := 0 }).2.1 =
      AcquireOutcome.accepted 10 := by
  refine ⟨((C1_acquire_bounds
    { browserCount := 10, profiles := [], clusters := [], lastUpdated := 0 }
    "1" 10 5 6 (by decide)).1 (by decide)).2.1, ?_⟩
  exact ((C1_acquire_bounds
    { browserCount := 9, profiles := [], clusters := [], lastUpdated := 0 }
    "1" 10 5 6 (by decide)).2 (by decide)).1

open FileBrowserManager in
theorem cleanup_foldl_live (now maxT : Int) :
    ∀ (l : List (String × ClusterInfo)) (acc : BrowserState × Nat),
      (∀ e ∈ l, ¬ (now - e.2.lastActivity > maxT)) →
      l.foldl (cleanupEntry now maxT) acc = acc
  | [], _, _ => rfl
  | e :: rest, acc, h => by
    have he : ¬ (now - e.2.lastActivity > maxT) := h e (List.mem_cons_self e rest)
    rw [List.foldl_cons,
      show cleanupEntry now maxT acc e = acc from by simp [cleanupEntry, he]]
    exact cleanup_foldl_live now maxT rest acc
      (fun x hx => h x (List.mem_cons_of_mem e hx))

/-- C5 (corrected): the subtraction is floored at 0, so when the dead worker's
recorded count exceeds the current `globalCount` the decrease is *not* exactly
that worker's count: a ledger at `globalCount = 1` whose sole (dead) worker
records count 3 ends at 0, a decrease of 1 ≠ 3. -/
theorem C5_counterexample :
    (FileBrowserManager.cleanupDeadClusters 400000 300000
      { browserCount := 1, profiles := [],
        clusters := [("7", { count := 3, lastActivity := 0 })],
        lastUpdated := 0 }).1.browserCount = 0 ∧
    (FileBrowserManager.cleanupDeadClusters 400000 300000
      { browserCount := 1, profiles := [],
        clusters := [("7", { count := 3, lastActivity := 0 })],
        lastUpdated := 0 }).2 = 1 ∧
    (1 : Int) - 0 ≠ 3 := by
  decide

open FileBrowserManager in
/-- C5 (amended): after a reap pass in which exactly the worker `w` is past
the inactivity threshold, `globalCount` becomes `max 0 (old - count)` — the
decrease equals `w`'s recorded count whenever that count does not exceed the
prior `globalCount`, and is floored at 0 otherwise — `w`'s ledger entry is
deleted, every profile owned by `w` is removed, and the call returns 1, the
number of workers reaped. -/
theorem C5_reap_dead_worker (s : BrowserState) (w : String) (info : ClusterInfo)
    (pre post : List (String × ClusterInfo)) (now maxT : Int)
    (hs : s.clusters = pre ++ (w, info) :: post)
    (hdead : now - info.lastActivity > maxT)
    (hlive : ∀ e ∈ pre ++ post, ¬ (now - e.2.lastActivity > maxT)) :
    (cleanupDeadClusters now maxT s).2 = 1 ∧
    (cleanupDeadClusters now maxT s).1.browserCount =
      max 0 (s.browserCount - info.count) ∧
    lookupA w (cleanupDeadClusters now maxT s).1.clusters = none ∧
    (cleanupDeadClusters now maxT s).1.profiles =
      s.profiles.filter (fun p => ¬ (p.2.clusterId = w)) ∧
    (info.count ≤ s.browserCount →
      s.browserCount - (cleanupDeadClusters now maxT s).1.browserCount =
        info.count) := by
  have hpre : ∀ e ∈ pre, ¬ (now - e.2.lastActivity > maxT) :=
    fun e he => hlive e (List.mem_append_left post he)
  have hpost : ∀ e ∈ post, ¬ (now - e.2.lastActivity > maxT) :=
    fun e he => hlive e (List.mem_append_right pre he)
  have hperform : performClusterCleanup now maxT s =
      ({ s with
          browserCount := max 0 (s.browserCount - info.count),
          clusters := eraseA w (pre ++ (w, info) :: post),
          profiles := s.profiles.filter (fun p => ¬ (p.2.clusterId = w)) }, 1) := by
    rw [performClusterCleanup, hs, List.foldl_append,
      cleanup_foldl_live now maxT pre _ hpre, List.foldl_cons,
      show cleanupEntry now maxT (s, 0) (w, info) =
        ({ s with
            browserCount := max 0 (s.browserCount - info.count),
            clusters := eraseA w (pre ++ (w, info) :: post),
            profiles := s.profiles.filter (fun p => ¬ (p.2.clusterId = w)) }, 1)
        from by simp [cleanupEntry, hdead, hs]]
    exact cleanup_foldl_live now maxT post _ hpost
  have hmain : cleanupDeadClusters now maxT s =
      (writeState now
        { s with
            browserCount := max 0 (s.browserCount - info.count),
            clusters := eraseA w (pre ++ (w, info) :: post),
            profiles := s.profiles.filter (fun p => ¬ (p.2.clusterId = w)) }, 1) := by
    rw [cleanupDeadClusters, hperform]
    rfl
  rw [hmain]
  refine ⟨rfl, rfl, lookupA_eraseA_self w (pre ++ (w, info) :: post), rfl, ?_⟩
  intro hle
  simp only [writeState]
  omega

/-- Witness for C5: a two-worker ledger where worker `"7"` (count 3) has been
silent since time 0 and worker `"8"` is recent; at time 400000 and threshold
300000 the reap removes `"7"`, its profile, and exactly its 3 slots. -/
theorem C5_witness :
    (FileBrowserManager.cleanupDeadClusters 400000 300000
      { browserCount := 4,
        profiles := [("p1", { id := "p1", clusterId := "7" }),
                     ("p2", { id := "p2", clusterId := "8" })],
        clusters := [("7", { count := 3, lastActivity := 0 }),
                     ("8", { count := 1, lastActivity := 390000 })],
        lastUpdated := 0 }).2 = 1 ∧
    (FileBrowserManager.cleanupDeadClusters 400000 300000
      { browserCount := 4,
        profiles := [("p1", { id := "p1", clusterId := "7" }),
                     ("p2", { id := "p2", clusterId := "8" })],
        clusters := [("7", { count := 3, lastActivity := 0 }),
                     ("8", { count := 1, lastActivity := 390000 })],
        lastUpdated := 0 }).1.browserCount = max 0 (4 - 3) ∧
    lookupA "7" (FileBrowserManager.cleanupDeadClusters 400000 300000
      { browserCount := 4,
        profiles := [("p1", { id := "p1", clusterId := "7" }),
                     ("p2", { id := "p2", clusterId := "8" })],
        clusters := [("7", { count := 3, lastActivity := 0 }),
                     ("8", { count := 1, lastActivity := 390000 })],
        lastUpdated := 0 }).1.clusters = none := by
  have h := C5_reap_dead_worker
    { browserCount := 4,
      profiles := [("p1", { id := "p1", clusterId := "7" }),
                   ("p2", { id := "p2", clusterId := "8" })],
      clusters := [("7", { count := 3, lastActivity := 0 }),
                   ("8", { count := 1, lastActivity := 390000 })],
      lastUpdated := 0 }
    "7" { count := 3, lastActivity := 0 } []
    [("8", { count := 1, lastActivity := 390000 })] 400000 300000
    rfl (by decide) (by decide)
  exact ⟨h.1, h.2.1, h.2.2.1⟩

/-- C4 (corrected): the stale-lock break defeats mutual exclusion.  Process
`"A"` acquires at time 0 and holds; at time 40000 (> the 30000ms stale
threshold) process `"B"` unlinks the lock as stale and immediately acquires,
so both `"A"` and `"B"` hold the lock simultaneously. -/
theorem C4_counterexample :
    lockRun [LockEv.acquireOk "A" 0, LockEv.staleBreak "B" 40000,
      LockEv.acquireOk "B" 40000] =
      some { lockFile := some ("B", 40000), holders := ["B", "A"] } ∧
    "A" ≠ "B" := by
  decide

theorem lockStep_preserves_inv (w w₂ : LockWorld) (e : LockEv)
    (hw : LockInv w) (hnb : e.isStaleBreak = false)
    (hstep : lockStep w e = some w₂) : LockInv w₂ := by
  cases e with
  | acquireOk p t =>
    cases hlf : w.lockFile with
    | none =>
      simp only [lockStep, hlf, Option.some.injEq] at hstep
      rcases hw with ⟨h1, _⟩ | ⟨q, m, _, h2⟩
      · right
        exact ⟨p, t, by rw [← hstep]; simp [h1]⟩
      · rw [h2] at hlf
        exact absurd hlf (by simp)
    | some pr =>
      simp [lockStep, hlf] at hstep
  | staleBreak p t =>
    simp [LockEv.isStaleBreak] at hnb
  | release p =>
    simp only [lockStep, Option.some.injEq] at hstep
    rcases hw with ⟨h1, h2⟩ | ⟨q, m, h1, h2⟩
    · left
      rw [← hstep]
      simp [h1, h2]
    · by_cases hqp : q = p
      · left
        rw [← hstep]
        subst hqp
        simp [h1, h2]
      · right
        refine ⟨q, m, ?_, ?_⟩ <;> rw [← hstep]
        · simp [h1, List.erase_cons,
            show (q == p) = false from beq_false_of_ne hqp]
        · simp [h2, hqp]

theorem lockRunAux_inv :
    ∀ (evs : List LockEv) (w₀ w : LockWorld), LockInv w₀ →
      (∀ e ∈ evs, e.isStaleBreak = false) →
      evs.foldlM lockStep w₀ = some w → LockInv w
  | [], w₀, w, hw, _, hrun => by
    simp only [List.foldlM_nil, Option.pure_def, Option.some.injEq] at hrun
    rwa [← hrun]
  | e :: rest, w₀, w, hw, hnb, hrun => by
    rw [List.foldlM_cons] at hrun
    cases hstep : lockStep w₀ e with
    | none => rw [hstep] at hrun; exact absurd hrun (by simp)
    | some w₁ =>
      rw [hstep] at hrun
      exact lockRunAux_inv rest w₁ w
        (lockStep_preserves_inv w₀ w₁ e hw (hnb e (List.mem_cons_self e rest)) hstep)
        (fun x hx => hnb x (List.mem_cons_of_mem e hx)) hrun

/-- C4 (amended): mutual exclusion holds for every run of the lock protocol in
which no stale-lock break occurs (no holder keeps the lock past the 30000ms
stale threshold while others contend): in every reachable world at most one
process holds the lock, and the lock file then carries exactly that holder's
identifier. -/
theorem C4_mutex_without_stale_break (evs : List LockEv) (w : LockWorld)
    (hnb : ∀ e ∈ evs, e.isStaleBreak = false)
    (hrun : lockRun evs = some w) :
    w.holders.length ≤ 1 ∧
    (∀ p, p ∈ w.holders → ∃ m, w.lockFile = some (p, m)) := by
  have hinv := lockRunAux_inv evs { lockFile := none, holders := [] } w
    (Or.inl ⟨rfl, rfl⟩) hnb hrun
  rcases hinv with ⟨h1, _⟩ | ⟨q, m, h1, h2⟩
  · rw [h1]
    exact ⟨by simp, by simp⟩
  · rw [h1]
    refine ⟨by simp, ?_⟩
    intro p hp
    rw [List.mem_singleton] at hp
    exact ⟨m, by rw [h2, hp]⟩

/-- Witness for C4: a break-free run (acquire, release, acquire by another)
ends with a single holder. -/
theorem C4_witness :
    lockRun [LockEv.acquireOk "A" 0, LockEv.release "A",
      LockEv.acquireOk "B" 50] =
      some { lockFile := some ("B", 50), holders := ["B"] } ∧
    ({ lockFile := some ("B", 50), holders := ["B"] } : LockWorld).holders.length ≤ 1 := by
  refine ⟨by decide, ?_⟩
  exact (C4_mutex_without_stale_break
    [LockEv.acquireOk "A" 0, LockEv.release "A", LockEv.acquireOk "B" 50]
    { lockFile := some ("B", 50), holders := ["B"] }
    (by decide) (by decide)).1

open FileBrowserManager in
/-- C9 (confirmed): `waitForAvailableSlot` fails open: the only error it ever
raises is the timeout (raised exactly when the time budget, modelled as fuel,
is exhausted without a free slot), and whenever the polls from the current
point are internal errors for more than the threshold of 5 consecutive
iterations within the remaining budget, it returns `true` ("assuming we can
proceed") instead of raising. -/
theorem C9_waitForSlot_fails_open (polls : Nat → PollResult) (fuel i cf : Nat) :
    (∀ e, waitForAvailableSlot polls fuel i cf = .error e →
      e = "Timeout waiting for available browser slot") ∧
    ((∀ j, i ≤ j → j < i + (6 - cf) → polls j = .err) → cf ≤ 5 → 6 - cf ≤ fuel →
      waitForAvailableSlot polls fuel i cf = .ok true) := by
  constructor
  · induction fuel generalizing i cf with
    | zero =>
      intro e he
      simp only [waitForAvailableSlot, Except.error.injEq] at he
      exact he.symm
    | succ f ih =>
      intro e he
      cases hp : polls i with
      | ok canCreate =>
        cases canCreate with
        | true => simp [waitForAvailableSlot, hp] at he
        | false =>
          simp only [waitForAvailableSlot, hp] at he
          exact ih (i + 1) cf e he
      | err =>
        simp only [waitForAvailableSlot, hp] at he
        by_cases h5 : 5 < cf + 1
        · rw [if_pos h5] at he
          exact absurd he (by simp)
        · rw [if_neg h5] at he
          exact ih (i + 1) (cf + 1) e he
  · induction fuel generalizing i cf with
    | zero =>
      intro _ hcf hfuel
      omega
    | succ f ih =>
      intro hall hcf hfuel
      have hp : polls i = .err := hall i le_rfl (by omega)
      simp only [waitForAvailableSlot, hp]
      by_cases h5 : 5 < cf + 1
      · rw [if_pos h5]
      · rw [if_neg h5]
        exact ih (i + 1) (cf + 1)
          (fun j h1 h2 => hall j (by omega) (by omega)) (by omega) (by omega)

/-- Witness for C9: with every poll failing, a budget of 6 iterations returns
"available" instead of raising. -/
theorem C9_witness :
    FileBrowserManager.waitForAvailableSlot (fun _ => PollResult.err) 6 0 0 =
      .ok true :=
  (C9_waitForSlot_fails_open (fun _ => PollResult.err) 6 0 0).2
    (fun _ _ _ => rfl) (by omega) (by omega)

theorem raceLoop_no_exit :
    ∀ l : List SettledVal, (∀ v ∈ l, v.isExit = false) →
      PSNInstance.raceLoop l = (l.filterMap settledResultNoExit, false)
  | [], _ => rfl
  | v :: rest, h => by
    have hv := h v (List.mem_cons_self v rest)
    have ih := raceLoop_no_exit rest (fun x hx => h x (List.mem_cons_of_mem v hx))
    cases v with
    | completed r => simp [PSNInstance.raceLoop, ih, settledResultNoExit]
    | exitSignal r => simp [SettledVal.isExit] at hv
    | errored r => simp [PSNInstance.raceLoop, ih, settledResultNoExit]
    | aborted n => simp [PSNInstance.raceLoop, ih, settledResultNoExit]

theorem raceLoop_exit (r : AccountResult) (post : List SettledVal) :
    ∀ pre : List SettledVal, (∀ v ∈ pre, v.isExit = false) →
      PSNInstance.raceLoop (pre ++ SettledVal.exitSignal r :: post) =
        (pre.filterMap settledResultNoExit ++ [r], true)
  | [], _ => rfl
  | v :: rest, h => by
    have hv := h v (List.mem_cons_self v rest)
    have ih := raceLoop_exit r post rest (fun x hx => h x (List.mem_cons_of_mem v hx))
    cases v with
    | completed r₂ => simp [PSNInstance.raceLoop, ih, settledResultNoExit]
    | exitSignal r₂ => simp [SettledVal.isExit] at hv
    | errored r₂ => simp [PSNInstance.raceLoop, ih, settledResultNoExit]
    | aborted n => simp [PSNInstance.raceLoop, ih, settledResultNoExit]

/-- C2 (corrected): when the race loop consumes an `'exit'` settled value it
breaks immediately, so inputs whose promises were still unresolved get no
result entry at all.  With three inputs where input #2 (index 1) signals exit
before input #3 (index 2) is consumed, the returned run is cancelled but its
results cover only tab indices 0 and 1 — index 2 is silently dropped, not
recorded as Aborted or Errored. -/
theorem C2_counterexample :
    (PSNInstance.processAccountsInParallel
      [SettledVal.completed
        { email := "a0", status := "good", tabIndex := 0, shouldExit := false },
       SettledVal.exitSignal
        { email := "a1", status := "timeout-error", tabIndex := 1, shouldExit := true },
       SettledVal.completed
        { email := "a2", status := "good", tabIndex := 2, shouldExit := false }]).exitTriggered =
      true ∧
    ((PSNInstance.processAccountsInParallel
      [SettledVal.completed
        { email := "a0", status := "good", tabIndex := 0, shouldExit := false },
       SettledVal.exitSignal
        { email := "a1", status := "timeout-error", tabIndex := 1, shouldExit := true },
       SettledVal.completed
        { email := "a2", status := "good", tabIndex := 2, shouldExit := false }]).finalResults.map
        (fun r => r.tabIndex)) = [0, 1] ∧
    ¬ (2 ∈ ((PSNInstance.processAccountsInParallel
      [SettledVal.completed
        { email := "a0", status := "good", tabIndex := 0, shouldExit := false },
       SettledVal.exitSignal
        { email := "a1", status := "timeout-error", tabIndex := 1, shouldExit := true },
       SettledVal.completed
        { email := "a2", status := "good", tabIndex := 2, shouldExit := false }]).finalResults.map
        (fun r => r.tabIndex))) := by
  decide

/-- C2 (amended): whatever the completion order, on cancellation the returned
run consists of exactly the `'completed'`/`'error'` results consumed before
the triggering `'exit'` value, followed by the triggering result, with
`exitTriggered = true`; every input not yet consumed at that point (and every
`'aborted'` value) receives no result entry — pending inputs are dropped, not
recorded as Aborted. -/
theorem C2_cancellation_drops_pending (pre : List SettledVal) (r : AccountResult)
    (post : List SettledVal) (h : ∀ v ∈ pre, v.isExit = false) :
    PSNInstance.processAccountsInParallel (pre ++ SettledVal.exitSignal r :: post) =
      { finalResults := pre.filterMap settledResultNoExit ++ [r],
        exitTriggered := true } := by
  simp [PSNInstance.processAccountsInParallel, raceLoop_exit r post pre h]

/-- Witness for C2 at a concrete three-input batch. -/
theorem C2_witness :
    PSNInstance.processAccountsInParallel
      [SettledVal.completed
        { email := "a0", status := "good", tabIndex := 0, shouldExit := false },
       SettledVal.exitSignal
        { email := "a1", status := "timeout-error", tabIndex := 1, shouldExit := true },
       SettledVal.aborted 2] =
      { finalResults :=
          [{ email := "a0", status := "good", tabIndex := 0, shouldExit := false },
           { email := "a1", status := "timeout-error", tabIndex := 1, shouldExit := true }],
        exitTriggered := true } :=
  C2_cancellation_drops_pending
    [SettledVal.completed
      { email := "a0", status := "good", tabIndex := 0, shouldExit := false }]
    { email := "a1", status := "timeout-error", tabIndex := 1, shouldExit := true }
    [SettledVal.aborted 2] (by decide)

/-- C7 (corrected): the results are pushed in completion (consumption) order,
not positioned by input index: with two inputs completing in the order
index 1 then index 0, the returned list is `[tabIndex 1, tabIndex 0]` — the
entry at position 0 belongs to input 1. -/
theorem C7_counterexample :
    ((PSNInstance.processAccountsInParallel
      [SettledVal.completed
        { email := "a1", status := "good", tabIndex := 1, shouldExit := false },
       SettledVal.completed
        { email := "a0", status := "good", tabIndex := 0, shouldExit := false }]).finalResults.map
        (fun r => r.tabIndex)) = [1, 0] ∧
    ¬ ((PSNInstance.processAccountsInParallel
      [SettledVal.completed
        { email := "a1", status := "good", tabIndex := 1, shouldExit := false },
       SettledVal.completed
        { email := "a0", status := "good", tabIndex := 0, shouldExit := false }]).finalResults.map
        (fun r => r.tabIndex)) = [0, 1] := by
  decide

/-- C7 (amended): the scheduler returns the results in completion
(consumption) order — each entry carrying its input's identity in its
`tabIndex` field rather than being positioned by it — together with the
`exitTriggered` flag; a run without an `'exit'` value returns every
`'completed'`/`'error'` result in consumption order with
`exitTriggered = false`, and a cancelled run reports `exitTriggered = true`
with the triggering result as its last entry. -/
theorem C7_completion_order_and_flag (l pre post : List SettledVal)
    (r : AccountResult) (hl : ∀ v ∈ l, v.isExit = false)
    (hpre : ∀ v ∈ pre, v.isExit = false) :
    PSNInstance.processAccountsInParallel l =
      { finalResults := l.filterMap settledResultNoExit, exitTriggered := false } ∧
    (PSNInstance.processAccountsInParallel
      (pre ++ SettledVal.exitSignal r :: post)).exitTriggered = true ∧
    (PSNInstance.processAccountsInParallel
      (pre ++ SettledVal.exitSignal r :: post)).finalResults.getLast? = some r := by
  refine ⟨?_, ?_, ?_⟩
  · simp [PSNInstance.processAccountsInParallel, raceLoop_no_exit l hl]
  · simp [PSNInstance.processAccountsInParallel, raceLoop_exit r post pre hpre]
  · simp [PSNInstance.processAccountsInParallel, raceLoop_exit r post pre hpre]

/-- Witness for C7 at concrete runs. -/
theorem C7_witness :
    PSNInstance.processAccountsInParallel
      [SettledVal.completed
        { email := "a1", status := "good", tabIndex := 1, shouldExit := false }] =
      { finalResults :=
          [{ email := "a1", status := "good", tabIndex := 1, shouldExit := false }],
        exitTriggered := false } ∧
    (PSNInstance.processAccountsInParallel
      [SettledVal.exitSignal
        { email := "a0", status := "timeout-error", tabIndex := 0,
          shouldExit := true }]).finalResults.getLast? =
      some { email := "a0", status := "timeout-error", tabIndex := 0,
             shouldExit := true } := by
  have h := C7_completion_order_and_flag
    [SettledVal.completed
      { email := "a1", status := "good", tabIndex := 1, shouldExit := false }]
    [] []
    { email := "a0", status := "timeout-error", tabIndex := 0, shouldExit := true }
    (by decide) (by decide)
  exact ⟨h.1, h.2.2⟩

/-- C3 (corrected): a timeout on the last-indexed input with retry budget
remaining (`timeoutRetryCount = 0 < MAX_TIMEOUT_RETRIES = 2`) is handled as an
ordinary retryable error (the retry throw), not escalated; and even when the
escalation fires, `processAccount` returns the inner result record — which
carries no `shouldExit` field — so the scheduler classifies it `'completed'`
and the batch is never cancelled. -/
theorem C3_counterexample :
    AccountProcessor.processLoginTimeoutBranch
      { hasTimeoutMessage := true, tabIndex := 2, accountsCount := 3,
        timeoutRetryCount := 0 }
      "a@b.c" { email := "a@b.c", status := "good", tabIndex := 2, shouldExit := false } =
      LoginStepOutcome.retryThrow ∧
    PSNInstance.classifyProcessed
      (AccountProcessor.processAccountReturn
        (AccountProcessor.ProcessLoginRet.withExit
          (AccountProcessor.timeoutErrorResult "a@b.c" 2))) =
      SettledVal.completed (AccountProcessor.timeoutErrorResult "a@b.c" 2) := by
  decide

/-- C3 (amended): `_processLogin` produces a `shouldExit`-marked outcome
exactly when the timeout message is observed, the task is the last-indexed
input (`accountsCount = tabIndex + 1`), *and* the timeout retry budget is
exhausted (`timeoutRetryCount ≥ MAX_TIMEOUT_RETRIES`); a last-input timeout
with retries remaining is thrown as an ordinary retryable error, a timeout on
a non-last input never escalates, and `processAccount` returns only the inner
result of an escalated outcome — whose `shouldExit` field is absent (falsy) —
so the batch scheduler classifies it `'completed'` and no batch-wide
cancellation results from this path. -/
theorem C3_escalation_iff_last_and_exhausted (c : LoginCtx) (email : String)
    (nr : AccountResult) :
    (AccountProcessor.processLoginTimeoutBranch c email nr =
        LoginStepOutcome.exitSignal
          (AccountProcessor.timeoutErrorResult email c.tabIndex) ↔
      c.hasTimeoutMessage = true ∧ c.accountsCount = c.tabIndex + 1 ∧
        AccountProcessor.MAX_TIMEOUT_RETRIES ≤ c.timeoutRetryCount) ∧
    (c.accountsCount ≠ c.tabIndex + 1 →
      AccountProcessor.processLoginTimeoutBranch c email nr =
        LoginStepOutcome.normal nr) ∧
    (AccountProcessor.timeoutErrorResult email c.tabIndex).shouldExit = false ∧
    PSNInstance.classifyProcessed
      (AccountProcessor.processAccountReturn
        (AccountProcessor.ProcessLoginRet.withExit
          (AccountProcessor.timeoutErrorResult email c.tabIndex))) =
      SettledVal.completed (AccountProcessor.timeoutErrorResult email c.tabIndex) := by
  refine ⟨?_, ?_, rfl, ?_⟩
  · unfold AccountProcessor.processLoginTimeoutBranch
    split_ifs with hcond hret
    · exact iff_of_true rfl ⟨hcond.1, hcond.2, hret⟩
    · exact iff_of_false (by simp) (fun h => hret h.2.2)
    · exact iff_of_false (by simp) (fun h => hcond ⟨h.1, h.2.1⟩)
  · intro hne
    unfold AccountProcessor.processLoginTimeoutBranch
    rw [if_neg (fun hc => hne hc.2)]
  · simp [PSNInstance.classifyProcessed, AccountProcessor.processAccountReturn,
      AccountProcessor.timeoutErrorResult]

/-- Witness for C3: escalation at the exhausted last input, normal flow at a
non-last input. -/
theorem C3_witness :
    AccountProcessor.processLoginTimeoutBranch
      { hasTimeoutMessage := true, tabIndex := 2, accountsCount := 3,
        timeoutRetryCount := 2 }
      "a@b.c" { email := "a@b.c", status := "good", tabIndex := 2, shouldExit := false } =
      LoginStepOutcome.exitSignal (AccountProcessor.timeoutErrorResult "a@b.c" 2) ∧
    AccountProcessor.processLoginTimeoutBranch
      { hasTimeoutMessage := true, tabIndex := 0, accountsCount := 3,
        timeoutRetryCount := 2 }
      "a@b.c" { email := "a@b.c", status := "good", tabIndex := 0, shouldExit := false } =
      LoginStepOutcome.normal
        { email := "a@b.c", status := "good", tabIndex := 0, shouldExit := false } := by
  constructor
  · exact (C3_escalation_iff_last_and_exhausted
      { hasTimeoutMessage := true, tabIndex := 2, accountsCount := 3,
        timeoutRetryCount := 2 }
      "a@b.c"
      { email := "a@b.c", status := "good", tabIndex := 2, shouldExit := false }).1.mpr
      ⟨rfl, rfl, by decide⟩
  · exact (C3_escalation_iff_last_and_exhausted
      { hasTimeoutMessage := true, tabIndex := 0, accountsCount := 3,
        timeoutRetryCount := 2 }
      "a@b.c"
      { email := "a@b.c", status := "good", tabIndex := 0, shouldExit := false }).2.1
      (by decide)

end Bot
